import Mathlib

/-
Shallow embedding of the session lifecycle manager in sessions.js
(wwebjs-api).  The registry is the in-memory `sessions` Map, the
filesystem is a list of existing directories (normalized absolute
paths, given as lists of components; no symlinks, so realpath is the
identity on existing paths).  External collaborator behaviour (the
whatsapp-web.js client, puppeteer page/browser) is captured by oracle
fields on the client handle.
-/

namespace Wwebjs

/-- Outcome of one `pupPage.evaluate` attempt raced against the 1s timer
(sessions.js lines 53-56): the evaluation resolves, the race times out
(the bare timer resolves first), or the evaluation rejects. -/
inductive EvalOutcome where
  | ok
  | timeout
  | exn
deriving Repr, DecidableEq

/-- In-memory client handle together with behaviour oracles for the
external client/browser it wraps. -/
structure ClientHandle where
  /-- whether `waitForNestedObject(client, "pupPage")` succeeds and `client.pupPage` is set. -/
  hasPupPage : Bool := true
  /-- result of `client.pupPage.isClosed()` -/
  pageClosed : Bool := false
  /-- outcome of the i-th evaluate attempt; attempts beyond the list resolve. -/
  evalOutcomes : List EvalOutcome := []
  /-- value returned by `client.getState()`. -/
  state : String := "CONNECTED"
  /-- whether `client.getState()` rejects. -/
  getStateThrows : Bool := false
  getStateErrMsg : String := "getState failed"
  /-- whether `client.logout()` rejects. -/
  logoutThrows : Bool := false
  /-- whether `client.destroy()` rejects. -/
  destroyThrows : Bool := false
  /-- closing the browser pages (reloadSession) rejects. -/
  pagesCloseThrows : Bool := false
  /-- accessing/killing the browser process (reloadSession fallback) rejects. -/
  processAccessThrows : Bool := false
  /-- a "close" listener is registered on the page. -/
  closeListenerOn : Bool := false
  /-- an "error" listener is registered on the page. -/
  errorListenerOn : Bool := false
  /-- cached QR payload (`client.qr`). -/
  qr : Option String := none
  /-- cached QR image (`client.qrImage`). -/
  qrImage : Option String := none
deriving Repr, DecidableEq

/-- the record produced by `validateSession`:  success, state, message. -/
structure ValidationResult where
  success : Bool
  state : Option String
  message : String
deriving Repr, DecidableEq

/-- The `sessions` Map: association list from session id to handle. -/
abbrev Registry := List (String × ClientHandle)

/-- lookup, as in `sessions.get(id)`. -/
def lookupS : Registry → String → Option ClientHandle
  | [], _ => none
  | (k, v) :: rest, id => if k = id then some v else lookupS rest id

/-- Number of registry entries stored under `id`. -/
def countKey (l : Registry) (id : String) : Nat :=
  (l.filter (fun p => p.1 == id)).length

/-- Replace the handle stored under `id` (in-place mutation of the object
held by the Map; entries under other keys are untouched). -/
def updateEntry : Registry → String → (ClientHandle → ClientHandle) → Registry
  | [], _, _ => []
  | (k, v) :: rest, id, f =>
    if k = id then (k, f v) :: updateEntry rest id f
    else (k, v) :: updateEntry rest id f

/-- removal, as in `sessions.delete(id)`. -/
def removeEntry (l : Registry) (id : String) : Registry :=
  l.filter (fun p => !(p.1 == id))

/-- The evaluate retry loop of validateSession (lines 46-65).  `attempt`
is the index of the current try, `retriesLeft` is `2 - maxRetry`.
Returns `some r` when the loop returns early with result `r`, `none`
when it breaks out (probe passed).  A rejection (`exn`) feeds the retry
loop; a resolve or a race timeout breaks out of the loop. -/
def probeEvalAux (c : ClientHandle) : Nat → Nat → Option ValidationResult
  | attempt, 0 =>
    if ¬ c.hasPupPage ∨ c.pageClosed then
      some ⟨false, none, "browser tab closed"⟩
    else
      match c.evalOutcomes.getD attempt EvalOutcome.ok with
      | EvalOutcome.exn => some ⟨false, none, "session closed"⟩
      | _ => none
  | attempt, r + 1 =>
    if ¬ c.hasPupPage ∨ c.pageClosed then
      some ⟨false, none, "browser tab closed"⟩
    else
      match c.evalOutcomes.getD attempt EvalOutcome.ok with
      | EvalOutcome.exn => probeEvalAux c (attempt + 1) r
      | _ => none

/-- The probe starts with `maxRetry = 0`, i.e. 2 retries left. -/
def probeEval (c : ClientHandle) : Option ValidationResult :=
  probeEvalAux c 0 2

instance {α β : Type} [DecidableEq α] [DecidableEq β] : DecidableEq (Except α β) := fun a b =>
  match a, b with
  | Except.ok x, Except.ok y =>
    if h : x = y then Decidable.isTrue (by rw [h]) else Decidable.isFalse (by simp [h])
  | Except.error x, Except.error y =>
    if h : x = y then Decidable.isTrue (by rw [h]) else Decidable.isFalse (by simp [h])
  | Except.ok _, Except.error _ => Decidable.isFalse (by simp)
  | Except.error _, Except.ok _ => Decidable.isFalse (by simp)

/-- Body of validateSession for a handle found in the Map: the probe
loop followed by the `getState` check.  `Except.error` is a thrown
error reaching the outer catch (lines 78-81). -/
def validateClient (c : ClientHandle) : Except String ValidationResult :=
  match probeEval c with
  | some r => Except.ok r
  | none =>
    if c.getStateThrows then Except.error c.getStateErrMsg
    else if c.state ≠ "CONNECTED" then Except.ok ⟨false, some c.state, "session_not_connected"⟩
    else Except.ok ⟨true, some c.state, "session_connected"⟩

/-- validateSession without its outer try/catch (lines 29-77). -/
def validateSessionBody (sessions : Registry) (sessionId : String) :
    Except String ValidationResult :=
  match lookupS sessions sessionId with
  | none => Except.ok ⟨false, none, "session_not_found"⟩
  | some c => validateClient c

/-- validateSession (lines 28-82): the outer catch converts any thrown
error into a structured result carrying its message. -/
def validateSession (sessions : Registry) (sessionId : String) : ValidationResult :=
  match validateSessionBody sessions sessionId with
  | Except.ok r => r
  | Except.error m => ⟨false, none, m⟩

/-! ### Filesystem model

Paths are lists of components.  `splitPath` is the JS string split on
the path separator; `normalize` is the normalization performed by
`path.join` on an absolute base (empty and dot components dropped,
dot-dot pops, floored at the root).  The filesystem is the list of
existing directories, each stored as a normalized absolute path; there
are no symlinks, so `realpath` succeeds exactly on existing paths and
returns them unchanged. -/

/-- Split a character list on the separator character. -/
def splitChars : List Char → List Char → List String
  | [], cur => [String.mk cur.reverse]
  | ch :: rest, cur =>
    if ch = '/' then String.mk cur.reverse :: splitChars rest []
    else splitChars rest (ch :: cur)

/-- JS `s.split(path.sep)`. -/
def splitPath (s : String) : List String :=
  splitChars s.data []

/-- Normalization of `path.join(base, rel)` for an absolute `base`. -/
def normalize (base : List String) (comps : List String) : List String :=
  comps.foldl
    (fun acc c =>
      if c = "" ∨ c = "." then acc
      else if c = ".." then acc.dropLast
      else acc ++ [c])
    base

/-- Character rendering of an absolute path, separator-joined, as the
JS string `resolvedPath` (e.g. `[a, b]` renders as the characters of
the text slash a slash b). -/
def pathChars : List String → List Char
  | [] => []
  | c :: rest => '/' :: (c.data ++ pathChars rest)

/-- The directory tree: the list of existing directories. -/
abbrev FileSys := List (List String)

inductive FolderErr where
  /-- the `fs.promises.realpath` call rejected (path does not exist). -/
  | noEnt (p : List String)
  /-- the traversal guard threw (PathTraversalError). -/
  | traversal
deriving Repr, DecidableEq

/-- The resolved deletion target for a session id:
`path.join(sessionFolderPath, "session-" + sessionId)` resolved. -/
def sessionTarget (root : List String) (sessionId : String) : List String :=
  normalize root (splitPath ("session-" ++ sessionId))

/-- deleteSessionFolder (lines 482-498): resolve the target and the
root, require the target string to start with the root string plus a
separator, then `rm -rf` the target.  Errors reach the catch, are
logged and rethrown. -/
def deleteSessionFolder (root : List String) (fs : FileSys) (sessionId : String) :
    Except FolderErr FileSys :=
  let target := sessionTarget root sessionId
  if target ∈ fs then
    if root ∈ fs then
      if (pathChars root ++ ['/']).isPrefixOf (pathChars target) then
        Except.ok (fs.filter (fun d => !(target.isPrefixOf d)))
      else Except.error FolderErr.traversal
    else Except.error (FolderErr.noEnt root)
  else Except.error (FolderErr.noEnt target)

/-- Caller-side view of deleteSessionFolder: on a thrown error the
filesystem is untouched. -/
def deleteSessionFolderRun (root : List String) (fs : FileSys) (sessionId : String) :
    FileSys × Option FolderErr :=
  match deleteSessionFolder root fs sessionId with
  | Except.ok fs2 => (fs2, none)
  | Except.error e => (fs, some e)

/-! ### Lifecycle operations -/

/-- Combined mutable state: the `sessions` Map plus the directory
tree. -/
structure SysState where
  sessions : Registry
  fs : FileSys
deriving Repr, DecidableEq

inductive DelErr where
  /-- the `client.logout()` or `client.destroy()` call rejected. -/
  | teardown
  /-- deleteSessionFolder rethrew. -/
  | folder (e : FolderErr)
deriving Repr, DecidableEq

/-- effect of `pupPage.removeAllListeners` for the close and error events. -/
def stripPageListeners (c : ClientHandle) : ClientHandle :=
  { c with closeListenerOn := false, errorListenerOn := false }

/-- deleteSession (lines 537-569).  Returns the state as mutated by the
time the call returns or throws, plus the propagated error if any.
The websocket-server termination failure is caught and only logged
(lines 545-549); the bounded wait for browser disconnect (lines
557-562) gives up after 10 seconds and proceeds, with no state
effect either way. -/
def deleteSession (root : List String) (st : SysState) (sessionId : String)
    (validation : ValidationResult) : SysState × Option DelErr :=
  match lookupS st.sessions sessionId with
  | none => (st, none)
  | some c =>
    let st1 : SysState := { st with sessions := updateEntry st.sessions sessionId stripPageListeners }
    if validation.success && c.logoutThrows then
      (st1, some DelErr.teardown)
    else if !validation.success && validation.message == "session_not_connected" && c.destroyThrows then
      (st1, some DelErr.teardown)
    else
      let st2 : SysState := { st1 with sessions := removeEntry st1.sessions sessionId }
      match deleteSessionFolder root st2.fs sessionId with
      | Except.error e => (st2, some (DelErr.folder e))
      | Except.ok fs2 => ({ st2 with fs := fs2 }, none)

/-- Oracle for the client object a setupSession call would construct:
its handle and whether `client.initialize()` rejects. -/
structure NewClient where
  handle : ClientHandle
  initThrows : Bool := false
  initErrMsg : String := "initialize failed"
deriving Repr, DecidableEq

/-- the record returned by setupSession:  success, message, client. -/
structure SetupResult where
  success : Bool
  message : String
  client : Option ClientHandle
deriving Repr, DecidableEq

/-- The handle after initializeEvents: when auto-recovery is enabled,
page close/error listeners are registered (lines 202-221). -/
def registeredClient (recover : Bool) (nc : NewClient) : ClientHandle :=
  if recover then { nc.handle with closeListenerOn := true, errorListenerOn := true }
  else nc.handle

/-- setupSession without its outer catch (lines 115-188).  The inner
catch around `client.initialize()` logs and rethrows (lines 174-179).
On success the credential strategy has materialized the session
directory (external collaborator effect) and the handle is stored in
the Map.  The SingletonLock remediation touches a lock file only and
is not visible in the directory tree. -/
def setupSessionBody (recover : Bool) (root : List String) (st : SysState)
    (sessionId : String) (nc : NewClient) : Except String (SetupResult × SysState) :=
  match lookupS st.sessions sessionId with
  | some c => Except.ok (⟨false, "Session already exists for: " ++ sessionId, some c⟩, st)
  | none =>
    if nc.initThrows then Except.error nc.initErrMsg
    else
      let c := registeredClient recover nc
      let dir := root ++ ["session-" ++ sessionId]
      let fs1 := if dir ∈ st.fs then st.fs else st.fs ++ [dir]
      Except.ok (⟨true, "Session initiated successfully", some c⟩,
        ⟨st.sessions ++ [(sessionId, c)], fs1⟩)

/-- setupSession (lines 114-192): the outer catch converts any thrown
error into a `{ success: false, message, client: null }` return. -/
def setupSession (recover : Bool) (root : List String) (st : SysState)
    (sessionId : String) (nc : NewClient) : SetupResult × SysState :=
  match setupSessionBody recover root st sessionId nc with
  | Except.ok r => r
  | Except.error m => (⟨false, m, none⟩, st)

/-- reloadSession (lines 503-531): strip the page listeners, close the
browser (falling back to killing the process), remove the Map entry
and set the session up again.  The outer catch logs and rethrows; it
is reached when both the page-close path and the process-kill
fallback fail. -/
def reloadSession (recover : Bool) (root : List String) (st : SysState)
    (sessionId : String) (nc : NewClient) : SysState × Option String :=
  match lookupS st.sessions sessionId with
  | none => (st, none)
  | some c =>
    let st1 : SysState := { st with sessions := updateEntry st.sessions sessionId stripPageListeners }
    if c.pagesCloseThrows && c.processAccessThrows then
      (st1, some "reload failed")
    else
      let st2 : SysState := { st1 with sessions := removeEntry st1.sessions sessionId }
      let (_, st3) := setupSession recover root st2 sessionId nc
      (st3, none)

/-- Extract the session id from one directory entry of the session
folder: a direct child of the root whose name matches the pattern
`session-(.+)` (lines 578-581). -/
def sessionIdOfDir (root : List String) (d : List String) : Option String :=
  if root.isPrefixOf d then
    match d.drop root.length with
    | [name] =>
      if ("session-".data.isPrefixOf name.data) && name.data.length > 8 then
        some (String.mk (name.data.drop 8))
      else none
    | _ => none
  else none

/-- result of `fs.promises.readdir(sessionFolderPath)` filtered through the
`session-(.+)` pattern (lines 577-581). -/
def listSessionIds (root : List String) (fs : FileSys) : List String :=
  fs.filterMap (sessionIdOfDir root)

/-- The flush loop (lines 578-587): validate each id, delete it when the
flag selects it; a deleteSession throw escapes the loop, is logged by
the outer catch and rethrown (lines 588-591). -/
def flushLoop (root : List String) (deleteOnlyInactive : Bool) :
    List String → SysState → SysState × Option DelErr
  | [], st => (st, none)
  | sessionId :: rest, st =>
    let v := validateSession st.sessions sessionId
    if !deleteOnlyInactive || !v.success then
      match deleteSession root st sessionId v with
      | (st2, some e) => (st2, some e)
      | (st2, none) => flushLoop root deleteOnlyInactive rest st2
    else flushLoop root deleteOnlyInactive rest st

/-- flushSessions (lines 575-592): the directory listing is taken once
before the loop. -/
def flushSessions (root : List String) (st : SysState) (deleteOnlyInactive : Bool) :
    SysState × Option DelErr :=
  flushLoop root deleteOnlyInactive (listSessionIds root st.fs) st

/-! ### Crash-recovery trigger machine

Model of lines 202-221 for one session: `pupPage.once("close", ...)`
and `pupPage.once("error", ...)` each register a one-shot listener on
the page; firing a signal removes that signal's own listener and runs
`restartSession` (delete the Map entry, best-effort destroy, then
`setupSession` again), but leaves the sibling listener registered. -/

structure RecoveryState where
  closeListenerOn : Bool
  errorListenerOn : Bool
  registryHasId : Bool
  /-- number of setupSession invocations performed by recovery. -/
  setupCalls : Nat
deriving Repr, DecidableEq

inductive PageSignal where
  | close
  | error
deriving Repr, DecidableEq

/-- restartSession (lines 204-208): `sessions.delete`, destroy with
errors swallowed, then setupSession (assumed to succeed and re-insert
the entry). -/
def restartSessionStep (s : RecoveryState) : RecoveryState :=
  { s with registryHasId := true, setupCalls := s.setupCalls + 1 }

/-- Firing one page signal: a one-shot listener is removed before its
handler runs; an unregistered signal does nothing. -/
def fireSignal (s : RecoveryState) : PageSignal → RecoveryState
  | PageSignal.close =>
    if s.closeListenerOn then restartSessionStep { s with closeListenerOn := false } else s
  | PageSignal.error =>
    if s.errorListenerOn then restartSessionStep { s with errorListenerOn := false } else s

def fireSignals (s : RecoveryState) (sigs : List PageSignal) : RecoveryState :=
  sigs.foldl fireSignal s

/-- State right after initializeEvents registered both one-shot
listeners for a live session. -/
def recoveryInit : RecoveryState :=
  { closeListenerOn := true, errorListenerOn := true, registryHasId := true, setupCalls := 0 }

/-! ### QR lifecycle machine

Model of the QR-related handle state driven by the event handlers of
initializeEvents (lines 232-239 and 405-428). -/

structure QrTracker where
  qr : Option String
  qrImage : Option String
  timerArmed : Bool
deriving Repr, DecidableEq

inductive QrEvent where
  /-- the "qr" handler runs with a fresh payload (lines 405-428). -/
  | qrIssued (payload : String)
  /-- the then-block of the authenticated enablement check runs at
  listener-registration time; it sets `client.qr = null` (line 234). -/
  | authListenerRegistered
  /-- the "authenticated" handler runs (lines 235-238): it only
  triggers the webhook and websocket fan-out. -/
  | authenticatedFired
  /-- the 60-second `qrClearTimeout` callback runs (lines 414-418). -/
  | expiryTimerFired
deriving Repr, DecidableEq

/-- image rendered by the QRCode library from the payload. -/
def renderQr (payload : String) : String :=
  "png:" ++ payload

/-- One step of the QR state: qr events cache payload and image and
rearm the expiry timer; the expiry callback (only live while armed)
clears both; the authenticated handler leaves the QR fields alone. -/
def qrStep (s : QrTracker) : QrEvent → QrTracker
  | QrEvent.qrIssued payload =>
    { qr := some payload, qrImage := some (renderQr payload), timerArmed := true }
  | QrEvent.authListenerRegistered => { s with qr := none }
  | QrEvent.authenticatedFired => s
  | QrEvent.expiryTimerFired =>
    if s.timerArmed then { qr := none, qrImage := none, timerArmed := false } else s

def qrRun (s : QrTracker) (evs : List QrEvent) : QrTracker :=
  evs.foldl qrStep s

/-- Fresh handle before initializeEvents. -/
def qrInit : QrTracker :=
  { qr := none, qrImage := none, timerArmed := false }

/-- Directory entries of a well-formed session folder: any entry the
`session-(.+)` pattern accepts is the plain child directory named by
its id, and resolving that id leads back to the same directory
(ids are single path components, free of separators and dot
sequences). -/
def dirOk (root : List String) (d : List String) : Bool :=
  match sessionIdOfDir root d with
  | none => true
  | some id =>
    (d == root ++ ["session-" ++ id]) && (sessionTarget root id == d)

/-- Well-formedness of the on-disk session folder. -/
def flushWF (root : List String) (fs : FileSys) : Bool :=
  fs.all (dirOk root)

/-- A path component free of separators and nonempty. -/
def cleanComp (s : String) : Bool :=
  (!s.data.isEmpty) && s.data.all (fun ch => !(ch == '/'))

/-- All components of a path are clean. -/
def cleanPath (p : List String) : Bool :=
  p.all cleanComp

end Wwebjs

namespace Wwebjs

/-! ### Registry helper lemmas -/

theorem lookupS_removeEntry_self (l : Registry) (id : String) :
    lookupS (removeEntry l id) id = none := by
  induction l with
  | nil => rfl
  | cons p rest ih =>
    obtain ⟨k, v⟩ := p
    simp only [removeEntry, List.filter_cons] at *
    by_cases h : k = id
    · subst h
      simp [ih]
    · simp [h, lookupS, ih]

theorem lookupS_removeEntry_ne (l : Registry) (id j : String) (hne : j ≠ id) :
    lookupS (removeEntry l id) j = lookupS l j := by
  induction l with
  | nil => rfl
  | cons p rest ih =>
    obtain ⟨k, v⟩ := p
    simp only [removeEntry, List.filter_cons] at *
    by_cases h : k = id
    · subst h
      simp [lookupS, Ne.symm hne, ih]
    · by_cases h2 : k = j
      · subst h2
        simp [h, lookupS]
      · simp [h, h2, lookupS, ih]

theorem lookupS_updateEntry_ne (l : Registry) (id j : String) (f : ClientHandle → ClientHandle)
    (hne : j ≠ id) :
    lookupS (updateEntry l id f) j = lookupS l j := by
  induction l with
  | nil => rfl
  | cons p rest ih =>
    obtain ⟨k, v⟩ := p
    simp only [updateEntry] at *
    by_cases h : k = id
    · subst h
      simp [lookupS, Ne.symm hne, ih]
    · by_cases h2 : k = j
      · subst h2
        simp [h, lookupS]
      · simp [h, h2, lookupS, ih]

theorem lookupS_updateEntry_none (l : Registry) (id j : String) (f : ClientHandle → ClientHandle)
    (h : lookupS l j = none) :
    lookupS (updateEntry l id f) j = none := by
  induction l with
  | nil => rfl
  | cons p rest ih =>
    obtain ⟨k, v⟩ := p
    simp only [lookupS] at h
    by_cases h2 : k = j
    · simp [h2] at h
    · simp only [updateEntry] at *
      by_cases h3 : k = id
      · subst h3
        simp [lookupS, h2, ih (by simpa [h2] using h)]
      · simp [lookupS, h2, h3, ih (by simpa [h2] using h)]

theorem lookupS_removeEntry_none (l : Registry) (id j : String)
    (h : lookupS l j = none) :
    lookupS (removeEntry l id) j = none := by
  by_cases hej : j = id
  · subst hej; exact lookupS_removeEntry_self l j
  · rw [lookupS_removeEntry_ne l id j hej]; exact h

/-! ### isPrefixOf helper lemmas -/

theorem isPreOf_self {α : Type} [BEq α] [LawfulBEq α] (l : List α) :
    l.isPrefixOf l = true := by
  induction l with
  | nil => rfl
  | cons a t ih => simp [List.isPrefixOf, ih]

theorem isPreOf_append_cancel {α : Type} [BEq α] [LawfulBEq α] (l x y : List α) :
    (l ++ x).isPrefixOf (l ++ y) = x.isPrefixOf y := by
  induction l with
  | nil => rfl
  | cons a t ih => simpa [List.isPrefixOf] using ih

theorem nil_isPreOf {α : Type} [BEq α] (y : List α) : List.isPrefixOf [] y = true := by
  cases y <;> rfl

theorem isPreOf_append {α : Type} [BEq α] [LawfulBEq α] (x r : List α) :
    x.isPrefixOf (x ++ r) = true := by
  have h := isPreOf_append_cancel x [] r
  simp only [List.append_nil] at h
  rw [h]
  exact nil_isPreOf r

theorem isPreOf_exists {α : Type} [BEq α] [LawfulBEq α] :
    ∀ x y : List α, x.isPrefixOf y = true → ∃ rem, y = x ++ rem
  | [], y, _ => ⟨y, rfl⟩
  | a :: xs, [], h => by simp [List.isPrefixOf] at h
  | a :: xs, b :: ys, h => by
    simp only [List.isPrefixOf, Bool.and_eq_true, beq_iff_eq] at h
    obtain ⟨rem, hrem⟩ := isPreOf_exists xs ys h.2
    exact ⟨rem, by simp [h.1, hrem]⟩

theorem isPreOf_trans {α : Type} [BEq α] [LawfulBEq α] (x y z : List α)
    (h1 : x.isPrefixOf y = true) (h2 : y.isPrefixOf z = true) :
    x.isPrefixOf z = true := by
  obtain ⟨r1, rfl⟩ := isPreOf_exists x y h1
  obtain ⟨r2, rfl⟩ := isPreOf_exists (x ++ r1) z h2
  rw [List.append_assoc]
  exact isPreOf_append x (r1 ++ r2)

theorem isPreOf_comparable {α : Type} [BEq α] [LawfulBEq α] :
    ∀ (z x y : List α), x.isPrefixOf z = true → y.isPrefixOf z = true →
      x.isPrefixOf y = true ∨ y.isPrefixOf x = true
  | _, [], y, _, _ => Or.inl (nil_isPreOf y)
  | _, x :: xs, [], _, _ => Or.inr (nil_isPreOf (x :: xs))
  | [], _ :: _, _ :: _, h1, _ => by simp [List.isPrefixOf] at h1
  | c :: zs, a :: xs, b :: ys, h1, h2 => by
    simp only [List.isPrefixOf, Bool.and_eq_true, beq_iff_eq] at h1 h2
    rcases isPreOf_comparable zs xs ys h1.2 h2.2 with h | h
    · exact Or.inl (by simp [List.isPrefixOf, h1.1, h2.1, h])
    · exact Or.inr (by simp [List.isPrefixOf, h1.1, h2.1, h])

/-! ### Separator-joined paths: the startsWith guard detects exactly
the non-strict-descendants (for clean components) -/

theorem cleanComp_no_sep (s : String) (ch : Char) (hc : cleanComp s = true)
    (hm : ch ∈ s.data) : ¬ ch = '/' := by
  intro heq
  unfold cleanComp at hc
  rw [Bool.and_eq_true] at hc
  have hall := List.all_eq_true.mp hc.2 ch hm
  rw [heq] at hall
  simp at hall

theorem pathChars_slash_head (rs : List String) :
    ∃ X, pathChars rs ++ ['/'] = '/' :: X := by
  cases rs with
  | nil => exact ⟨[], rfl⟩
  | cons c t => exact ⟨c.data ++ pathChars t ++ ['/'], by simp [pathChars]⟩

/-- If the separator-joined rendering of `r` followed by a separator is
a character prefix of the rendering of `t`, and both paths have clean
components, then `r` is a strict component-wise ancestor of `t`. -/
theorem check_implies_strict :
    ∀ (r t : List String), cleanPath r = true → cleanPath t = true →
      (pathChars r ++ ['/']).isPrefixOf (pathChars t) = true →
      r.isPrefixOf t = true ∧ r ≠ t
  | [], t, _, _, hcheck => by
    cases t with
    | nil => simp [pathChars, List.isPrefixOf] at hcheck
    | cons b ts => exact ⟨nil_isPreOf _, by simp⟩
  | a :: rs, [], _, _, hcheck => by
    simp [pathChars, List.isPrefixOf] at hcheck
  | a :: rs, b :: ts, hcr, hct, hcheck => by
    have hH : (a.data ++ (pathChars rs ++ ['/'])).isPrefixOf (b.data ++ pathChars ts)
        = true := by
      have hshape : pathChars (a :: rs) ++ ['/'] = '/' :: (a.data ++ (pathChars rs ++ ['/'])) := by
        simp [pathChars]
      rw [hshape] at hcheck
      simpa [pathChars, List.isPrefixOf] using hcheck
    have hcra : cleanComp a = true ∧ cleanPath rs = true := by
      simpa [cleanPath] using hcr
    have hctb : cleanComp b = true ∧ cleanPath ts = true := by
      simpa [cleanPath] using hct
    have haw : a.data.isPrefixOf (b.data ++ pathChars ts) = true :=
      isPreOf_trans _ _ _ (isPreOf_append a.data _) hH
    have hbw : b.data.isPrefixOf (b.data ++ pathChars ts) = true := isPreOf_append _ _
    have hdata : a.data = b.data := by
      rcases isPreOf_comparable _ _ _ haw hbw with hab | hba
      · obtain ⟨rem, hrem⟩ := isPreOf_exists _ _ hab
        cases rem with
        | nil => rw [hrem]; simp
        | cons ch rem2 =>
          exfalso
          have hH2 : (pathChars rs ++ ['/']).isPrefixOf (ch :: (rem2 ++ pathChars ts))
              = true := by
            have heq2 : b.data ++ pathChars ts
                = a.data ++ (ch :: (rem2 ++ pathChars ts)) := by
              rw [hrem]; simp
            rw [heq2, isPreOf_append_cancel] at hH
            exact hH
          obtain ⟨X, hX⟩ := pathChars_slash_head rs
          rw [hX] at hH2
          have hch : ch = '/' := by
            simp [List.isPrefixOf] at hH2
            exact hH2.1.symm
          have hmem : ch ∈ b.data := by rw [hrem]; simp
          exact cleanComp_no_sep b ch hctb.1 hmem hch
      · obtain ⟨rem, hrem⟩ := isPreOf_exists _ _ hba
        cases rem with
        | nil => rw [hrem]; simp
        | cons ch rem2 =>
          exfalso
          have hH2 : (ch :: (rem2 ++ (pathChars rs ++ ['/']))).isPrefixOf (pathChars ts)
              = true := by
            have heq2 : a.data ++ (pathChars rs ++ ['/'])
                = b.data ++ (ch :: (rem2 ++ (pathChars rs ++ ['/']))) := by
              rw [hrem]; simp
            rw [heq2, isPreOf_append_cancel] at hH
            exact hH
          cases ts with
          | nil =>
            simp [pathChars, List.isPrefixOf] at hH2
          | cons d ts2 =>
            have hch : ch = '/' := by
              simp [pathChars, List.isPrefixOf] at hH2
              exact hH2.1
            have hmem : ch ∈ a.data := by rw [hrem]; simp
            exact cleanComp_no_sep a ch hcra.1 hmem hch
    have hab : a = b := String.ext hdata
    subst hab
    rw [isPreOf_append_cancel] at hH
    obtain ⟨hpre, hne⟩ := check_implies_strict rs ts hcra.2 hctb.2 hH
    refine ⟨by simp [List.isPrefixOf, hpre], ?_⟩
    intro hc2
    injection hc2 with h1 h2
    exact hne h2

/-! ### deleteSessionFolder and deleteSession characterization -/

theorem deleteSessionFolder_ok_eq (root : List String) (fs : FileSys) (sessionId : String)
    (fs2 : FileSys) (h : deleteSessionFolder root fs sessionId = Except.ok fs2) :
    fs2 = fs.filter (fun d => !((sessionTarget root sessionId).isPrefixOf d)) := by
  simp only [deleteSessionFolder] at h
  split at h
  · split at h
    · split at h
      · injection h with hh
        exact hh.symm
      · cases h
    · cases h
  · cases h

theorem sessionTarget_not_mem_filter (root : List String) (fs : FileSys) (sessionId : String) :
    sessionTarget root sessionId ∉
      fs.filter (fun d => !((sessionTarget root sessionId).isPrefixOf d)) := by
  intro hmem
  have h2 := (List.mem_filter.mp hmem).2
  rw [isPreOf_self] at h2
  simp at h2

theorem validateSession_congr (s s2 : Registry) (j : String)
    (h : lookupS s j = lookupS s2 j) :
    validateSession s j = validateSession s2 j := by
  unfold validateSession validateSessionBody
  rw [h]

theorem strAppend_left_cancel (p a b : String) (h : p ++ a = p ++ b) : a = b := by
  apply String.ext
  have hd : (p ++ a).data = (p ++ b).data := by rw [h]
  rw [String.data_append, String.data_append] at hd
  exact List.append_cancel_left hd

/-- The four possible outcomes of a deleteSession call. -/
theorem deleteSession_cases (root : List String) (st : SysState) (id : String)
    (v : ValidationResult) :
    (lookupS st.sessions id = none ∧ deleteSession root st id v = (st, none)) ∨
    (deleteSession root st id v
       = ({ st with sessions := updateEntry st.sessions id stripPageListeners },
          some DelErr.teardown)) ∨
    (∃ e, deleteSession root st id v
       = (⟨removeEntry (updateEntry st.sessions id stripPageListeners) id, st.fs⟩,
          some (DelErr.folder e))) ∨
    (deleteSession root st id v
       = (⟨removeEntry (updateEntry st.sessions id stripPageListeners) id,
           st.fs.filter (fun d => !((sessionTarget root id).isPrefixOf d))⟩, none)) := by
  cases hin : lookupS st.sessions id with
  | none => exact Or.inl ⟨rfl, by simp [deleteSession, hin]⟩
  | some c =>
    cases hg1 : (v.success && c.logoutThrows) with
    | true => exact Or.inr (Or.inl (by simp [deleteSession, hin, hg1]))
    | false =>
      cases hg2 : ((!v.success && (v.message == "session_not_connected")) && c.destroyThrows) with
      | true => exact Or.inr (Or.inl (by simp [deleteSession, hin, hg1, hg2]))
      | false =>
        cases hf : deleteSessionFolder root st.fs id with
        | error e =>
          exact Or.inr (Or.inr (Or.inl ⟨e, by simp [deleteSession, hin, hg1, hg2, hf]⟩))
        | ok fs2 =>
          have heq := deleteSessionFolder_ok_eq root st.fs id fs2 hf
          exact Or.inr (Or.inr (Or.inr (by simp [deleteSession, hin, hg1, hg2, hf, heq])))

/-- deleteSession never adds registry entries or directories. -/
theorem deleteSession_not_add (root : List String) (st : SysState) (id : String)
    (v : ValidationResult) (j : String) (d : List String) :
    (lookupS st.sessions j = none → lookupS (deleteSession root st id v).1.sessions j = none) ∧
    (d ∉ st.fs → d ∉ (deleteSession root st id v).1.fs) := by
  rcases deleteSession_cases root st id v with ⟨_, h⟩ | h | ⟨e, h⟩ | h
  · rw [h]; exact ⟨fun hh => hh, fun hh => hh⟩
  · rw [h]; exact ⟨fun hh => lookupS_updateEntry_none _ _ _ _ hh, fun hh => hh⟩
  · rw [h]
    exact ⟨fun hh => lookupS_removeEntry_none _ _ _ (lookupS_updateEntry_none _ _ _ _ hh),
           fun hh => hh⟩
  · rw [h]
    exact ⟨fun hh => lookupS_removeEntry_none _ _ _ (lookupS_updateEntry_none _ _ _ _ hh),
           fun hh hcontra => hh (List.mem_filter.mp hcontra).1⟩

/-- deleteSession for one identity does not disturb another identity:
its registry entry is untouched, and the other session directory
survives folder deletion. -/
theorem deleteSession_other (root : List String) (st : SysState) (id : String)
    (v : ValidationResult) (j : String)
    (hne : j ≠ id)
    (htgt : sessionTarget root id = root ++ ["session-" ++ id]) :
    lookupS (deleteSession root st id v).1.sessions j = lookupS st.sessions j ∧
    (root ++ ["session-" ++ j] ∈ st.fs →
      root ++ ["session-" ++ j] ∈ (deleteSession root st id v).1.fs) := by
  have hlu : lookupS (updateEntry st.sessions id stripPageListeners) j = lookupS st.sessions j :=
    lookupS_updateEntry_ne _ _ _ _ hne
  have hlr : lookupS (removeEntry (updateEntry st.sessions id stripPageListeners) id) j
      = lookupS st.sessions j := by
    rw [lookupS_removeEntry_ne _ _ _ hne]; exact hlu
  have hname : ("session-" ++ j) ≠ ("session-" ++ id) := fun hcon =>
    hne (strAppend_left_cancel _ _ _ hcon)
  have hsurv : root ++ ["session-" ++ j] ∈ st.fs →
      root ++ ["session-" ++ j] ∈
        st.fs.filter (fun d => !((sessionTarget root id).isPrefixOf d)) := by
    intro hmem
    refine List.mem_filter.mpr ⟨hmem, ?_⟩
    rw [htgt, isPreOf_append_cancel]
    simp [List.isPrefixOf, Ne.symm hname]
  rcases deleteSession_cases root st id v with ⟨_, h⟩ | h | ⟨e, h⟩ | h
  · rw [h]; exact ⟨rfl, fun hh => hh⟩
  · rw [h]; exact ⟨hlu, fun hh => hh⟩
  · rw [h]; exact ⟨hlr, fun hh => hh⟩
  · rw [h]; exact ⟨hlr, hsurv⟩

/-- The flush loop never adds registry entries or directories. -/
theorem flushLoop_not_add (root : List String) (flag : Bool) (ids : List String) :
    ∀ (st : SysState) (j : String) (d : List String),
      (lookupS st.sessions j = none →
        lookupS (flushLoop root flag ids st).1.sessions j = none) ∧
      (d ∉ st.fs → d ∉ (flushLoop root flag ids st).1.fs) := by
  induction ids with
  | nil => exact fun st j d => ⟨fun h => h, fun h => h⟩
  | cons i rest ih =>
    intro st j d
    simp only [flushLoop]
    by_cases hsel : (!flag || !(validateSession st.sessions i).success) = true
    · rw [if_pos hsel]
      cases hd : deleteSession root st i (validateSession st.sessions i) with
      | mk st2 oe =>
        have hstep := deleteSession_not_add root st i (validateSession st.sessions i) j d
        rw [hd] at hstep
        cases oe with
        | some e => exact hstep
        | none =>
          have hrest := ih st2 j d
          exact ⟨fun h => hrest.1 (hstep.1 h), fun h => hrest.2 (hstep.2 h)⟩
    · rw [if_neg hsel]
      exact ih st j d

/-- Identities absent from the Registry are untouched by the flush
loop: their entry stays absent and their directory survives. -/
theorem flushLoop_orphan (root : List String) (flag : Bool) (ids : List String) :
    ∀ (st : SysState) (j : String),
      (∀ i ∈ ids, sessionTarget root i = root ++ ["session-" ++ i]) →
      lookupS st.sessions j = none →
      lookupS (flushLoop root flag ids st).1.sessions j = none ∧
      (root ++ ["session-" ++ j] ∈ st.fs →
        root ++ ["session-" ++ j] ∈ (flushLoop root flag ids st).1.fs) := by
  induction ids with
  | nil => exact fun st j _ h => ⟨h, fun hm => hm⟩
  | cons i rest ih =>
    intro st j hclean hnone
    have hcleanRest : ∀ x ∈ rest, sessionTarget root x = root ++ ["session-" ++ x] :=
      fun x hm => hclean x (List.mem_cons_of_mem _ hm)
    simp only [flushLoop]
    by_cases hij : j = i
    · subst hij
      have hv : validateSession st.sessions j = ⟨false, none, "session_not_found"⟩ := by
        unfold validateSession validateSessionBody
        rw [hnone]
      have hsel : (!flag || !(validateSession st.sessions j).success) = true := by
        rw [hv]; simp
      rw [if_pos hsel]
      have hdel : deleteSession root st j (validateSession st.sessions j) = (st, none) := by
        simp [deleteSession, hnone]
      rw [hdel]
      exact ih st j hcleanRest hnone
    · have hcleani := hclean i (List.mem_cons_self _ _)
      by_cases hsel : (!flag || !(validateSession st.sessions i).success) = true
      · rw [if_pos hsel]
        cases hd : deleteSession root st i (validateSession st.sessions i) with
        | mk st2 oe =>
          have hpres := deleteSession_other root st i (validateSession st.sessions i) j hij hcleani
          rw [hd] at hpres
          cases oe with
          | some e => exact ⟨by rw [hpres.1]; exact hnone, hpres.2⟩
          | none =>
            have hrest := ih st2 j hcleanRest (by rw [hpres.1]; exact hnone)
            exact ⟨hrest.1, fun hm => hrest.2 (hpres.2 hm)⟩
      · rw [if_neg hsel]
        exact ih st j hcleanRest hnone

/-- With the delete-only-inactive flag set, a registered session whose
validation succeeds is untouched by the flush loop. -/
theorem flushLoop_keeps_connected (root : List String) (ids : List String) :
    ∀ (st : SysState) (j : String) (c : ClientHandle),
      (∀ i ∈ ids, sessionTarget root i = root ++ ["session-" ++ i]) →
      lookupS st.sessions j = some c →
      (validateSession st.sessions j).success = true →
      lookupS (flushLoop root true ids st).1.sessions j = some c ∧
      (root ++ ["session-" ++ j] ∈ st.fs →
        root ++ ["session-" ++ j] ∈ (flushLoop root true ids st).1.fs) := by
  induction ids with
  | nil => exact fun st j c _ h _ => ⟨h, fun hm => hm⟩
  | cons i rest ih =>
    intro st j c hclean hin hv
    have hcleanRest : ∀ x ∈ rest, sessionTarget root x = root ++ ["session-" ++ x] :=
      fun x hm => hclean x (List.mem_cons_of_mem _ hm)
    simp only [flushLoop]
    by_cases hij : j = i
    · subst hij
      have hcond : ¬ ((!true || !(validateSession st.sessions j).success) = true) := by
        rw [hv]; simp
      rw [if_neg hcond]
      exact ih st j c hcleanRest hin hv
    · have hcleani := hclean i (List.mem_cons_self _ _)
      by_cases hsel : (!true || !(validateSession st.sessions i).success) = true
      · rw [if_pos hsel]
        cases hd : deleteSession root st i (validateSession st.sessions i) with
        | mk st2 oe =>
          have hpres := deleteSession_other root st i (validateSession st.sessions i) j hij hcleani
          rw [hd] at hpres
          cases oe with
          | some e => exact ⟨by rw [hpres.1]; exact hin, hpres.2⟩
          | none =>
            have hv2 : (validateSession st2.sessions j).success = true := by
              rw [validateSession_congr st2.sessions st.sessions j (by rw [hpres.1])]
              exact hv
            have hrest := ih st2 j c hcleanRest (by rw [hpres.1]; exact hin) hv2
            exact ⟨hrest.1, fun hm => hrest.2 (hpres.2 hm)⟩
      · rw [if_neg hsel]
        exact ih st j c hcleanRest hin hv

/-- A registered on-disk identity selected by the flag is gone — from
the Registry and from disk — after a flush loop that completed
without error. -/
theorem flushLoop_deletes (root : List String) (flag : Bool) (ids : List String) :
    ∀ (st st' : SysState) (j : String) (c : ClientHandle),
      (∀ i ∈ ids, sessionTarget root i = root ++ ["session-" ++ i]) →
      flushLoop root flag ids st = (st', none) →
      j ∈ ids →
      lookupS st.sessions j = some c →
      (flag = false ∨ (validateSession st.sessions j).success = false) →
      lookupS st'.sessions j = none ∧ root ++ ["session-" ++ j] ∉ st'.fs := by
  induction ids with
  | nil => intro st st' j c _ _ hmem; simp at hmem
  | cons i rest ih =>
    intro st st' j c hclean hrun hmem hin hsel0
    have hcleanRest : ∀ x ∈ rest, sessionTarget root x = root ++ ["session-" ++ x] :=
      fun x hm => hclean x (List.mem_cons_of_mem _ hm)
    simp only [flushLoop] at hrun
    by_cases hij : j = i
    · subst hij
      have hselb : (!flag || !(validateSession st.sessions j).success) = true := by
        rcases hsel0 with h | h
        · rw [h]; simp
        · rw [h]; simp
      rw [if_pos hselb] at hrun
      cases hd : deleteSession root st j (validateSession st.sessions j) with
      | mk st2 oe =>
        rw [hd] at hrun
        cases oe with
        | some e => simp at hrun
        | none =>
          have hrun2 : flushLoop root flag rest st2 = (st', none) := hrun
          rcases deleteSession_cases root st j (validateSession st.sessions j)
            with ⟨hn, hcase⟩ | hcase | ⟨e, hcase⟩ | hcase
          · rw [hn] at hin; cases hin
          · rw [hcase] at hd; simp at hd
          · rw [hcase] at hd; simp at hd
          · rw [hcase] at hd
            have hst2 : st2 = ⟨removeEntry (updateEntry st.sessions j stripPageListeners) j,
                st.fs.filter (fun d => !((sessionTarget root j).isPrefixOf d))⟩ :=
              (congrArg Prod.fst hd).symm
            subst hst2
            have hcleanj := hclean j (List.mem_cons_self _ _)
            have hstep1 : lookupS (removeEntry (updateEntry st.sessions j stripPageListeners)
                j) j = none := lookupS_removeEntry_self _ _
            have hstep2 : root ++ ["session-" ++ j] ∉
                st.fs.filter (fun d => !((sessionTarget root j).isPrefixOf d)) := by
              rw [← hcleanj]
              exact sessionTarget_not_mem_filter root st.fs j
            have hrest := flushLoop_not_add root flag rest
              ⟨removeEntry (updateEntry st.sessions j stripPageListeners) j,
               st.fs.filter (fun d => !((sessionTarget root j).isPrefixOf d))⟩
              j (root ++ ["session-" ++ j])
            rw [hrun2] at hrest
            exact ⟨hrest.1 hstep1, hrest.2 hstep2⟩
    · have hcleani := hclean i (List.mem_cons_self _ _)
      have hmem2 : j ∈ rest := by
        rcases List.mem_cons.mp hmem with h | h
        · exact absurd h hij
        · exact h
      by_cases hseli : (!flag || !(validateSession st.sessions i).success) = true
      · rw [if_pos hseli] at hrun
        cases hd : deleteSession root st i (validateSession st.sessions i) with
        | mk st2 oe =>
          rw [hd] at hrun
          cases oe with
          | some e => simp at hrun
          | none =>
            have hpres := deleteSession_other root st i (validateSession st.sessions i) j hij hcleani
            rw [hd] at hpres
            have hv2 : validateSession st2.sessions j = validateSession st.sessions j :=
              validateSession_congr _ _ _ (by rw [hpres.1])
            refine ih st2 st' j c hcleanRest hrun hmem2 (by rw [hpres.1]; exact hin) ?_
            rcases hsel0 with h | h
            · exact Or.inl h
            · exact Or.inr (by rw [hv2]; exact h)
      · rw [if_neg hseli] at hrun
        exact ih st st' j c hcleanRest hrun hmem2 hin hsel0

/-! ### Claim theorems -/

/-- Claim C3 (code bug): when auto-recovery is enabled and a page-close
and a page-error signal fire in quick succession for the same
identity, the code runs a restart per signal — `setupSession` is
re-invoked twice, not exactly once: each `once` registration only
deregisters its own signal, leaving the sibling listener armed. -/
theorem recovery_double_restart_on_close_then_error :
    fireSignals recoveryInit [PageSignal.close, PageSignal.error]
      = { closeListenerOn := false, errorListenerOn := false,
          registryHasId := true, setupCalls := 2 } := by
  decide

/-- Claim C4: a second `setupSession(id)` while the Registry already
holds `id` fails fast with the already-exists result carrying the
existing handle, leaves the state untouched, and the Registry still
contains exactly one entry for `id`. -/
theorem setupSession_already_exists (recover : Bool) (root : List String) (st : SysState)
    (sessionId : String) (nc : NewClient) (c : ClientHandle)
    (hin : lookupS st.sessions sessionId = some c)
    (hone : countKey st.sessions sessionId = 1) :
    setupSession recover root st sessionId nc
      = (⟨false, "Session already exists for: " ++ sessionId, some c⟩, st) ∧
    countKey (setupSession recover root st sessionId nc).2.sessions sessionId = 1 := by
  have hbody : setupSessionBody recover root st sessionId nc
      = Except.ok (⟨false, "Session already exists for: " ++ sessionId, some c⟩, st) := by
    simp [setupSessionBody, hin]
  constructor
  · simp [setupSession, hbody]
  · simp [setupSession, hbody, hone]

theorem setupSession_already_exists_witness :
    lookupS [("alice", ({} : ClientHandle))] "alice" = some {} ∧
    countKey [("alice", ({} : ClientHandle))] "alice" = 1 ∧
    (setupSession true ["srv", "sessions"]
        ⟨[("alice", {})], [["srv", "sessions"]]⟩ "alice" ⟨{}, false, "m"⟩
      = (⟨false, "Session already exists for: " ++ "alice", some {}⟩,
         ⟨[("alice", {})], [["srv", "sessions"]]⟩) ∧
     countKey (setupSession true ["srv", "sessions"]
        ⟨[("alice", {})], [["srv", "sessions"]]⟩ "alice" ⟨{}, false, "m"⟩).2.sessions "alice" = 1) :=
  ⟨by decide, by decide,
   setupSession_already_exists true ["srv", "sessions"]
     ⟨[("alice", {})], [["srv", "sessions"]]⟩ "alice" ⟨{}, false, "m"⟩ {}
     (by decide) (by decide)⟩

/-- Claim C8: `validateSession` on an identity with no Registry entry
returns the structured not-found result, and any error thrown inside
its body is converted by the outer catch into a structured result
rather than escaping — callers always receive a `ValidationResult`
(the function is pure: it takes the registry and returns only a
result, mutating nothing). -/
theorem validateSession_probe_safe (sessions : Registry) (sessionId : String) :
    (lookupS sessions sessionId = none →
      validateSession sessions sessionId = ⟨false, none, "session_not_found"⟩) ∧
    (∀ m, validateSessionBody sessions sessionId = Except.error m →
      validateSession sessions sessionId = ⟨false, none, m⟩) := by
  constructor
  · intro h
    simp [validateSession, validateSessionBody, h]
  · intro m h
    simp [validateSession, h]

theorem validateSession_probe_safe_witness :
    validateSession [] "ghost" = ⟨false, none, "session_not_found"⟩ ∧
    validateSession [("a", { getStateThrows := true, getStateErrMsg := "boom" })] "a"
      = ⟨false, none, "boom"⟩ :=
  ⟨(validateSession_probe_safe [] "ghost").1 (by decide),
   (validateSession_probe_safe [("a", { getStateThrows := true, getStateErrMsg := "boom" })] "a").2
     "boom" (by decide)⟩

/-- Claim C9, counterexample: an evaluation that never resolves (each
race ends by the bare timer resolving) is treated as a successful
probe — validation proceeds and reports the session connected — so
the timeout fallback does not count as assume-failure feeding the
retry loop, contrary to the claim (under the claim, three timed-out
attempts would have exhausted the retries and yielded the
session-closed result). -/
theorem validateSession_timeout_assumes_success :
    validateSession
        [("a", { evalOutcomes := [EvalOutcome.timeout, EvalOutcome.timeout, EvalOutcome.timeout] })]
        "a"
      = ⟨true, some "CONNECTED", "session_connected"⟩ := by
  decide

/-- Claim C9, amended: the probe retries only on evaluation rejection,
at most 2 additional times, before declaring "session closed"; a
race timeout is treated as a successful probe and exits the retry
loop. -/
theorem validateSession_probe_retries (sessions : Registry) (sessionId : String)
    (c : ClientHandle)
    (hin : lookupS sessions sessionId = some c)
    (hpage : c.hasPupPage = true) (hopen : c.pageClosed = false) :
    ((c.evalOutcomes.getD 0 EvalOutcome.ok = EvalOutcome.exn ∧
      c.evalOutcomes.getD 1 EvalOutcome.ok = EvalOutcome.exn ∧
      c.evalOutcomes.getD 2 EvalOutcome.ok = EvalOutcome.exn) →
      validateSession sessions sessionId = ⟨false, none, "session closed"⟩) ∧
    (c.evalOutcomes.getD 0 EvalOutcome.ok = EvalOutcome.timeout →
      probeEval c = none) := by
  constructor
  · rintro ⟨h0, h1, h2⟩
    simp only [List.getD_eq_getElem?_getD] at h0 h1 h2
    have hprobe : probeEval c = some ⟨false, none, "session closed"⟩ := by
      simp [probeEval, probeEvalAux, hpage, hopen, h0, h1, h2]
    simp [validateSession, validateSessionBody, hin, validateClient, hprobe]
  · intro h0
    simp only [List.getD_eq_getElem?_getD] at h0
    simp [probeEval, probeEvalAux, hpage, hopen, h0]

theorem validateSession_probe_retries_witness :
    validateSession [("a", { evalOutcomes := [EvalOutcome.exn, EvalOutcome.exn, EvalOutcome.exn] })] "a"
      = ⟨false, none, "session closed"⟩ ∧
    probeEval { evalOutcomes := [EvalOutcome.timeout] } = none :=
  ⟨(validateSession_probe_retries
      [("a", { evalOutcomes := [EvalOutcome.exn, EvalOutcome.exn, EvalOutcome.exn] })] "a"
      { evalOutcomes := [EvalOutcome.exn, EvalOutcome.exn, EvalOutcome.exn] }
      (by decide) (by decide) (by decide)).1 ⟨by decide, by decide, by decide⟩,
   (validateSession_probe_retries [("b", { evalOutcomes := [EvalOutcome.timeout] })] "b"
      { evalOutcomes := [EvalOutcome.timeout] }
      (by decide) (by decide) (by decide)).2 (by decide)⟩

/-- Claim C10 (code bug): the authenticated event firing does not clear
the cached QR fields — the `client.qr = null` assignment runs once at
listener-registration time, outside the authenticated handler, and the
handler itself only fans the event out.  After a QR issuance followed
by the authenticated event, both cached fields are still set (they are
cleared only by the 60-second expiry timer). -/
theorem authenticated_leaves_qr_cached :
    qrRun qrInit [QrEvent.authListenerRegistered, QrEvent.qrIssued "payload",
                  QrEvent.authenticatedFired]
      = { qr := some "payload", qrImage := some "png:payload", timerArmed := true } := by
  decide

/-- Claim C7, counterexample: a setupSession whose client
initialization fails does not propagate the error to its caller — the
body rethrows it (left conjunct) but the outer catch converts it into
a normal `{ success: false, message, client: null }` return value
(right conjunct). -/
theorem setupSession_init_error_not_raised :
    setupSessionBody true ["srv"] ⟨[], [["srv"]]⟩ "a" ⟨{}, true, "boom"⟩
      = Except.error "boom" ∧
    setupSession true ["srv"] ⟨[], [["srv"]]⟩ "a" ⟨{}, true, "boom"⟩
      = (⟨false, "boom", none⟩, ⟨[], [["srv"]]⟩) := by
  constructor
  · decide
  · decide

/-- Claim C7, amended: errors during `deleteSession` and
`reloadSession` are re-raised to the caller, but `setupSession`
catches every error (including a failed client initialization, which
its inner catch logs and rethrows) and returns a failure result with
the error message instead of raising. -/
theorem lifecycle_error_propagation (recover : Bool) (root : List String) (st : SysState)
    (sessionId : String) (nc : NewClient) (v : ValidationResult) (c : ClientHandle) :
    (nc.initThrows = true → lookupS st.sessions sessionId = none →
      setupSessionBody recover root st sessionId nc = Except.error nc.initErrMsg ∧
      setupSession recover root st sessionId nc = (⟨false, nc.initErrMsg, none⟩, st)) ∧
    (lookupS st.sessions sessionId = some c → v.success = true → c.logoutThrows = true →
      (deleteSession root st sessionId v).2 = some DelErr.teardown) ∧
    (lookupS st.sessions sessionId = some c → c.pagesCloseThrows = true →
      c.processAccessThrows = true →
      (reloadSession recover root st sessionId nc).2 = some "reload failed") := by
  refine ⟨?_, ?_, ?_⟩
  · intro hthrow hnone
    have hbody : setupSessionBody recover root st sessionId nc = Except.error nc.initErrMsg := by
      simp [setupSessionBody, hnone, hthrow]
    exact ⟨hbody, by simp [setupSession, hbody]⟩
  · intro hin hs hl
    simp [deleteSession, hin, hs, hl]
  · intro hin hp hk
    simp [reloadSession, hin, hp, hk]

theorem lifecycle_error_propagation_witness :
    (setupSessionBody true ["srv"] ⟨[], [["srv"]]⟩ "a" ⟨{}, true, "boom"⟩
        = Except.error "boom" ∧
     setupSession true ["srv"] ⟨[], [["srv"]]⟩ "a" ⟨{}, true, "boom"⟩
        = (⟨false, "boom", none⟩, ⟨[], [["srv"]]⟩)) ∧
    (deleteSession ["srv"] ⟨[("b", { logoutThrows := true })], [["srv"]]⟩ "b"
        ⟨true, some "CONNECTED", "session_connected"⟩).2 = some DelErr.teardown ∧
    (reloadSession true ["srv"]
        ⟨[("d", { pagesCloseThrows := true, processAccessThrows := true })], [["srv"]]⟩
        "d" ⟨{}, false, "m"⟩).2 = some "reload failed" :=
  ⟨(lifecycle_error_propagation true ["srv"] ⟨[], [["srv"]]⟩ "a" ⟨{}, true, "boom"⟩
      ⟨true, some "CONNECTED", "session_connected"⟩ {}).1 (by decide) (by decide),
   (lifecycle_error_propagation true ["srv"] ⟨[("b", { logoutThrows := true })], [["srv"]]⟩ "b"
      ⟨{}, false, "m"⟩ ⟨true, some "CONNECTED", "session_connected"⟩
      { logoutThrows := true }).2.1 (by decide) (by decide) (by decide),
   (lifecycle_error_propagation true ["srv"]
      ⟨[("d", { pagesCloseThrows := true, processAccessThrows := true })], [["srv"]]⟩ "d"
      ⟨{}, false, "m"⟩ ⟨true, some "CONNECTED", "session_connected"⟩
      { pagesCloseThrows := true, processAccessThrows := true }).2.2
      (by decide) (by decide) (by decide)⟩

/-- Claim C2: whenever both realpath resolutions succeed (target and
root exist; the model is symlink-free, so resolution is identity) and
the resolved target is not a strict descendant of the resolved
session root, deleteSessionFolder throws the traversal error and the
filesystem is left entirely untouched — nothing inside or outside the
root is deleted. -/
theorem deleteSessionFolder_traversal_guard (root : List String) (fs : FileSys)
    (sessionId : String)
    (hcr : cleanPath root = true)
    (hct : cleanPath (sessionTarget root sessionId) = true)
    (htmem : sessionTarget root sessionId ∈ fs)
    (hrmem : root ∈ fs)
    (hnotdesc : ¬ (root.isPrefixOf (sessionTarget root sessionId) = true ∧
                   root ≠ sessionTarget root sessionId)) :
    deleteSessionFolderRun root fs sessionId = (fs, some FolderErr.traversal) := by
  have hcheck :
      ((pathChars root ++ ['/']).isPrefixOf (pathChars (sessionTarget root sessionId)))
        = false := by
    cases hc : (pathChars root ++ ['/']).isPrefixOf (pathChars (sessionTarget root sessionId))
    · rfl
    · exact absurd (check_implies_strict root (sessionTarget root sessionId) hcr hct hc)
        hnotdesc
  simp [deleteSessionFolderRun, deleteSessionFolder, htmem, hrmem, hcheck]

theorem deleteSessionFolder_traversal_guard_witness :
    sessionTarget ["srv", "sessions"] "../../../etc" = ["srv", "etc"] ∧
    ¬ (["srv", "sessions"].isPrefixOf (["srv", "etc"] : List String) = true) ∧
    deleteSessionFolderRun ["srv", "sessions"] [["srv", "sessions"], ["srv", "etc"]]
        "../../../etc"
      = ([["srv", "sessions"], ["srv", "etc"]], some FolderErr.traversal) :=
  ⟨by decide, by decide,
   deleteSessionFolder_traversal_guard ["srv", "sessions"]
     [["srv", "sessions"], ["srv", "etc"]] "../../../etc"
     (by decide) (by decide) (by decide) (by decide) (by decide)⟩

/-- Claim C1, counterexample: with a Registry entry whose graceful
sign-out rejects, deleteSession rethrows and terminates with the
Registry still containing the identity and the on-disk directory
still present — deletion is not unconditional. -/
theorem deleteSession_logout_failure_counterexample :
    deleteSession ["srv", "sessions"]
        ⟨[("alice", { logoutThrows := true })],
         [["srv", "sessions"], ["srv", "sessions", "session-alice"]]⟩
        "alice" ⟨true, some "CONNECTED", "session_connected"⟩
      = (⟨[("alice", { logoutThrows := true })],
          [["srv", "sessions"], ["srv", "sessions", "session-alice"]]⟩,
         some DelErr.teardown) ∧
    lookupS (deleteSession ["srv", "sessions"]
        ⟨[("alice", { logoutThrows := true })],
         [["srv", "sessions"], ["srv", "sessions", "session-alice"]]⟩
        "alice" ⟨true, some "CONNECTED", "session_connected"⟩).1.sessions "alice"
      = some { logoutThrows := true } ∧
    ["srv", "sessions", "session-alice"] ∈ (deleteSession ["srv", "sessions"]
        ⟨[("alice", { logoutThrows := true })],
         [["srv", "sessions"], ["srv", "sessions", "session-alice"]]⟩
        "alice" ⟨true, some "CONNECTED", "session_connected"⟩).1.fs := by
  refine ⟨by decide, by decide, by decide⟩

/-- Claim C1, amended: for an identity with a Registry entry,
deleteSession removes the Registry entry and then the on-disk
directory, provided the teardown step it chooses does not throw
(graceful sign-out when the validation succeeded, forced destroy when
the session was merely unpaired) and the folder deletion itself
succeeds; websocket-termination failures and the bounded disconnect
wait never abort it.  When a teardown step throws, the error
propagates and the entry and directory survive (see the
counterexample). -/
theorem deleteSession_removes_entry_and_folder (root : List String) (st : SysState)
    (sessionId : String) (v : ValidationResult) (c : ClientHandle) (fs2 : FileSys)
    (hin : lookupS st.sessions sessionId = some c)
    (hl : ¬ (v.success = true ∧ c.logoutThrows = true))
    (hd : ¬ (v.success = false ∧ v.message = "session_not_connected" ∧ c.destroyThrows = true))
    (hfolder : deleteSessionFolder root st.fs sessionId = Except.ok fs2) :
    (deleteSession root st sessionId v).2 = none ∧
    lookupS (deleteSession root st sessionId v).1.sessions sessionId = none ∧
    sessionTarget root sessionId ∉ (deleteSession root st sessionId v).1.fs := by
  have hguard1 : (v.success && c.logoutThrows) = false := by
    cases hs : v.success
    · simp
    · cases hlo : c.logoutThrows
      · simp
      · exact absurd ⟨hs, hlo⟩ hl
  have hguard2 : ((!v.success && (v.message == "session_not_connected")) && c.destroyThrows)
      = false := by
    cases hs : v.success
    · by_cases hm : v.message = "session_not_connected"
      · cases hdt : c.destroyThrows
        · simp
        · exact absurd ⟨hs, hm, hdt⟩ hd
      · simp [hm]
    · simp
  have hres : deleteSession root st sessionId v
      = (⟨removeEntry (updateEntry st.sessions sessionId stripPageListeners) sessionId, fs2⟩,
         none) := by
    simp [deleteSession, hin, hguard1, hguard2, hfolder]
  refine ⟨by rw [hres], ?_, ?_⟩
  · rw [hres]
    exact lookupS_removeEntry_self _ _
  · rw [hres]
    have heq := deleteSessionFolder_ok_eq root st.fs sessionId fs2 hfolder
    rw [show (⟨removeEntry (updateEntry st.sessions sessionId stripPageListeners) sessionId,
          fs2⟩ : SysState).fs = fs2 from rfl, heq]
    exact sessionTarget_not_mem_filter root st.fs sessionId

theorem deleteSession_removes_entry_and_folder_witness :
    lookupS [("alice", ({} : ClientHandle))] "alice" = some {} ∧
    deleteSessionFolder ["srv", "sessions"]
        [["srv", "sessions"], ["srv", "sessions", "session-alice"]] "alice"
      = Except.ok [["srv", "sessions"]] ∧
    ((deleteSession ["srv", "sessions"]
        ⟨[("alice", {})], [["srv", "sessions"], ["srv", "sessions", "session-alice"]]⟩
        "alice" ⟨false, none, "browser tab closed"⟩).2 = none ∧
     lookupS (deleteSession ["srv", "sessions"]
        ⟨[("alice", {})], [["srv", "sessions"], ["srv", "sessions", "session-alice"]]⟩
        "alice" ⟨false, none, "browser tab closed"⟩).1.sessions "alice" = none ∧
     sessionTarget ["srv", "sessions"] "alice" ∉ (deleteSession ["srv", "sessions"]
        ⟨[("alice", {})], [["srv", "sessions"], ["srv", "sessions", "session-alice"]]⟩
        "alice" ⟨false, none, "browser tab closed"⟩).1.fs) :=
  ⟨by decide, by decide,
   deleteSession_removes_entry_and_folder ["srv", "sessions"]
     ⟨[("alice", {})], [["srv", "sessions"], ["srv", "sessions", "session-alice"]]⟩
     "alice" ⟨false, none, "browser tab closed"⟩ {} [["srv", "sessions"]]
     (by decide) (by decide) (by decide) (by decide)⟩

/-- Claim C6, counterexample: with two on-disk sessions where deleting
the first one throws (its sign-out rejects), the flush rethrows
immediately: the second identity is neither validated nor deleted —
its directory and Registry entry survive — so a failure deleting one
session does abort the remaining flush. -/
theorem flushSessions_failure_aborts_counterexample :
    flushSessions ["s"]
        ⟨[("a", { logoutThrows := true }), ("b", {})],
         [["s"], ["s", "session-a"], ["s", "session-b"]]⟩ false
      = (⟨[("a", { logoutThrows := true }), ("b", {})],
          [["s"], ["s", "session-a"], ["s", "session-b"]]⟩,
         some DelErr.teardown) ∧
    ["s", "session-b"] ∈ (flushSessions ["s"]
        ⟨[("a", { logoutThrows := true }), ("b", {})],
         [["s"], ["s", "session-a"], ["s", "session-b"]]⟩ false).1.fs ∧
    lookupS (flushSessions ["s"]
        ⟨[("a", { logoutThrows := true }), ("b", {})],
         [["s"], ["s", "session-a"], ["s", "session-b"]]⟩ false).1.sessions "b" = some {} := by
  refine ⟨by decide, by decide, by decide⟩

/-- Claim C6, amended: a failure while deleting one session is logged
and rethrown by flushSessions, aborting the flush — the loop stops at
the failing identity, the error propagates to the caller, and the
identities after it are not validated or deleted (the returned state
is exactly the state left by the failing deleteSession call). -/
theorem flushLoop_aborts_on_failure (root : List String) (flag : Bool) (sessionId : String)
    (rest : List String) (st st2 : SysState) (e : DelErr)
    (hsel : (!flag || !(validateSession st.sessions sessionId).success) = true)
    (hdel : deleteSession root st sessionId (validateSession st.sessions sessionId)
      = (st2, some e)) :
    flushLoop root flag (sessionId :: rest) st = (st2, some e) := by
  simp [flushLoop, hsel, hdel]

theorem flushLoop_aborts_on_failure_witness :
    (!false || !(validateSession [("a", { logoutThrows := true })] "a").success) = true ∧
    deleteSession ["s"] ⟨[("a", { logoutThrows := true })], [["s"], ["s", "session-a"]]⟩ "a"
        (validateSession [("a", { logoutThrows := true })] "a")
      = (⟨[("a", { logoutThrows := true })], [["s"], ["s", "session-a"]]⟩, some DelErr.teardown) ∧
    flushLoop ["s"] false ["a", "b", "c"]
        ⟨[("a", { logoutThrows := true })], [["s"], ["s", "session-a"]]⟩
      = (⟨[("a", { logoutThrows := true })], [["s"], ["s", "session-a"]]⟩, some DelErr.teardown) :=
  ⟨by decide, by decide,
   flushLoop_aborts_on_failure ["s"] false "a" ["b", "c"]
     ⟨[("a", { logoutThrows := true })], [["s"], ["s", "session-a"]]⟩
     ⟨[("a", { logoutThrows := true })], [["s"], ["s", "session-a"]]⟩
     DelErr.teardown (by decide) (by decide)⟩

/-- Claim C5, amended: over a well-formed session folder, a flush that
completes without error deletes exactly the on-disk identities that
are present in the Registry and selected by the flag
(`deleteOnlyInactive = true` selects those whose validation has
`success = false`; `false` selects every registered identity), leaving
connected sessions untouched when the flag is set; on-disk identities
with no Registry entry are never deleted — `deleteSession` returns
without touching the directory for identities absent from the Map. -/
theorem flushSessions_deletes_registry_sessions (root : List String) (st st' : SysState)
    (flag : Bool)
    (hwf : flushWF root st.fs = true)
    (hrun : flushSessions root st flag = (st', none)) :
    ∀ id, id ∈ listSessionIds root st.fs →
      (lookupS st.sessions id = none →
        lookupS st'.sessions id = none ∧ root ++ ["session-" ++ id] ∈ st'.fs) ∧
      (∀ c, lookupS st.sessions id = some c → flag = true →
        (validateSession st.sessions id).success = true →
        lookupS st'.sessions id = some c ∧ root ++ ["session-" ++ id] ∈ st'.fs) ∧
      (∀ c, lookupS st.sessions id = some c →
        (flag = false ∨ (validateSession st.sessions id).success = false) →
        lookupS st'.sessions id = none ∧ root ++ ["session-" ++ id] ∉ st'.fs) := by
  have hclean : ∀ i ∈ listSessionIds root st.fs,
      sessionTarget root i = root ++ ["session-" ++ i] := by
    intro i hi
    obtain ⟨d, hd, hdi⟩ := List.mem_filterMap.mp hi
    have hok := List.all_eq_true.mp hwf d hd
    unfold dirOk at hok
    rw [hdi, Bool.and_eq_true] at hok
    exact (eq_of_beq hok.2).trans (eq_of_beq hok.1)
  have hdirmem : ∀ i ∈ listSessionIds root st.fs, root ++ ["session-" ++ i] ∈ st.fs := by
    intro i hi
    obtain ⟨d, hd, hdi⟩ := List.mem_filterMap.mp hi
    have hok := List.all_eq_true.mp hwf d hd
    unfold dirOk at hok
    rw [hdi, Bool.and_eq_true] at hok
    rw [← eq_of_beq hok.1]
    exact hd
  unfold flushSessions at hrun
  intro id hid
  refine ⟨?_, ?_, ?_⟩
  · intro hnone
    have h := flushLoop_orphan root flag (listSessionIds root st.fs) st id hclean hnone
    rw [hrun] at h
    exact ⟨h.1, h.2 (hdirmem id hid)⟩
  · intro c hin hflag hv
    subst hflag
    have h := flushLoop_keeps_connected root (listSessionIds root st.fs) st id c hclean hin hv
    rw [hrun] at h
    exact ⟨h.1, h.2 (hdirmem id hid)⟩
  · intro c hin hsel
    exact flushLoop_deletes root flag (listSessionIds root st.fs) st st' id c
      hclean hrun hid hin hsel

theorem flushSessions_deletes_registry_sessions_witness :
    flushWF ["s"] [["s"], ["s", "session-a"], ["s", "session-b"], ["s", "session-c"]] = true ∧
    flushSessions ["s"]
        ⟨[("a", {}), ("b", { hasPupPage := false })],
         [["s"], ["s", "session-a"], ["s", "session-b"], ["s", "session-c"]]⟩ true
      = (⟨[("a", {})], [["s"], ["s", "session-a"], ["s", "session-c"]]⟩, none) ∧
    (lookupS ([("a", {})] : Registry) "c" = none ∧
      ["s"] ++ ["session-" ++ "c"] ∈ [["s"], ["s", "session-a"], ["s", "session-c"]]) ∧
    (lookupS ([("a", {})] : Registry) "a" = some {} ∧
      ["s"] ++ ["session-" ++ "a"] ∈ [["s"], ["s", "session-a"], ["s", "session-c"]]) ∧
    (lookupS ([("a", {})] : Registry) "b" = none ∧
      ["s"] ++ ["session-" ++ "b"] ∉ [["s"], ["s", "session-a"], ["s", "session-c"]]) :=
  ⟨by decide, by decide,
   (flushSessions_deletes_registry_sessions ["s"]
      ⟨[("a", {}), ("b", { hasPupPage := false })],
       [["s"], ["s", "session-a"], ["s", "session-b"], ["s", "session-c"]]⟩
      ⟨[("a", {})], [["s"], ["s", "session-a"], ["s", "session-c"]]⟩ true
      (by decide) (by decide) "c" (by decide)).1 (by decide),
   (flushSessions_deletes_registry_sessions ["s"]
      ⟨[("a", {}), ("b", { hasPupPage := false })],
       [["s"], ["s", "session-a"], ["s", "session-b"], ["s", "session-c"]]⟩
      ⟨[("a", {})], [["s"], ["s", "session-a"], ["s", "session-c"]]⟩ true
      (by decide) (by decide) "a" (by decide)).2.1 {} (by decide) rfl (by decide),
   (flushSessions_deletes_registry_sessions ["s"]
      ⟨[("a", {}), ("b", { hasPupPage := false })],
       [["s"], ["s", "session-a"], ["s", "session-b"], ["s", "session-c"]]⟩
      ⟨[("a", {})], [["s"], ["s", "session-a"], ["s", "session-c"]]⟩ true
      (by decide) (by decide) "b" (by decide)).2.2 { hasPupPage := false } (by decide)
      (Or.inr (by decide))⟩

/-- Claim C5, counterexample: an on-disk identity with no Registry
entry is not deleted by `flushSessions(false)` — deleteSession
early-returns for identities absent from the Map, so the orphan
directory survives even though the flag selects every identity found
on disk. -/
theorem flushSessions_orphan_counterexample :
    "a" ∈ listSessionIds ["s"] [["s"], ["s", "session-a"]] ∧
    flushSessions ["s"] ⟨[], [["s"], ["s", "session-a"]]⟩ false
      = (⟨[], [["s"], ["s", "session-a"]]⟩, none) ∧
    ["s", "session-a"] ∈
      (flushSessions ["s"] ⟨[], [["s"], ["s", "session-a"]]⟩ false).1.fs := by
  refine ⟨by decide, by decide, by decide⟩

end Wwebjs


